import Mathlib

/-!
Verification of the realtime WebSocket connection manager of this repository
(`frontend/lib/auth.ts`: class `WebSocketManager`, `getWebSocketManager`) and of
the `useWebSocket` hook.

Shallow embedding: the mutable fields of the manager become a state record `MState`;
the four socket callbacks, the two timers and the public API become state
transformers; an event type `Ev` and a `run` function replay any sequence of
API calls, socket events and timer firings under the single-threaded event-loop
execution model.  Socket handles and timer handles are modelled by fresh
natural-number identifiers drawn from a counter, and the records of the environment
(every socket ever constructed with its ready-state, every pending one-shot
timeout, every running interval timer) are kept alongside the fields owned by the manager itself so that leaked handles remain observable.  `scheduledDelays` is a pure
observation log of the delays passed to `setTimeout` by `scheduleReconnect`.
-/

/-- Ready-state of a browser WebSocket: CONNECTING, OPEN, CLOSING, CLOSED. -/
inductive SockState where
  | connecting
  | opened
  | closing
  | closed
deriving DecidableEq

/-- A registered callback, identified by a token; `throwsEx` records whether
invoking it raises an exception (the only behavior of a callback visible to the
dispatch loops). -/
structure Handler where
  id : Nat
  throwsEx : Bool
deriving DecidableEq

/-- JSON values, the wire data model (payloads and outbound messages). -/
inductive Json where
  | null
  | bool (b : Bool)
  | num (n : Int)
  | str (s : String)
  | arr (xs : List Json)
  | obj (fields : List (String × Json))

mutual

/-- `JSON.stringify` on the modelled value trees. -/
def stringifyJson : Json → String
  | .null => "null"
  | .bool b => if b then "true" else "false"
  | .num n => toString n
  | .str s => "\"" ++ s ++ "\""
  | .arr xs => "[" ++ stringifyArr xs ++ "]"
  | .obj fs => "\x7b" ++ stringifyObj fs ++ "\x7d"

def stringifyArr : List Json → String
  | [] => ""
  | [x] => stringifyJson x
  | x :: y :: xs => stringifyJson x ++ "," ++ stringifyArr (y :: xs)

def stringifyObj : List (String × Json) → String
  | [] => ""
  | [(k, v)] => "\"" ++ k ++ "\":" ++ stringifyJson v
  | (k, v) :: y :: xs => "\"" ++ k ++ "\":" ++ stringifyJson v ++ "," ++ stringifyObj (y :: xs)
end

/-- The `WebSocketConfig` interface: optional numeric fields are `Option Nat`
(`none` models an absent or `undefined` field). -/
structure WSConfig where
  url : String
  reconnectInterval : Option Nat
  maxReconnectAttempts : Option Nat
  heartbeatInterval : Option Nat
  channels : List String
deriving DecidableEq

/-- JavaScript `x || d` on an optional number: `undefined`/absent AND `0` are
falsy, so both fall back to the default `d`.  This is the semantics of
`this.config.maxReconnectAttempts || 10` and
`this.config.reconnectInterval || 5000` in `scheduleReconnect`. -/
def jsOr (x : Option Nat) (d : Nat) : Nat :=
  match x with
  | some n => if n = 0 then d else n
  | none => d

/-- State of a `WebSocketManager` instance together with the event-loop
environment it owns: `ws`..`isIntentionallyClosed` are the class fields;
`sockets` records every socket ever constructed with its current ready-state
(so sockets the manager no longer references are still tracked);
`pendingReconnects` records every not-yet-fired `setTimeout` handle created by
`scheduleReconnect` with its delay; `runningHeartbeats` records every
not-yet-cleared `setInterval` handle created by `startHeartbeat`; `nextId`
supplies fresh handles; `scheduledDelays` logs each delay passed to
`setTimeout`, in order. -/
@[ext] structure MState where
  ws : Option Nat
  sockets : List (Nat × SockState)
  messageHandlers : List (String × List Handler)
  connectionHandlers : List Handler
  disconnectionHandlers : List Handler
  reconnectAttempts : Nat
  reconnectTimer : Option Nat
  heartbeatTimer : Option Nat
  isIntentionallyClosed : Bool
  pendingReconnects : List (Nat × Nat)
  runningHeartbeats : List Nat
  nextId : Nat
  scheduledDelays : List Nat

/-- Ready-state lookup of a socket handle in the environment record. -/
def findSock : List (Nat × SockState) → Nat → Option SockState
  | [], _ => none
  | p :: rest, sid => if p.1 = sid then some p.2 else findSock rest sid

/-- Update the ready-state of socket `sid`. -/
def setSock (l : List (Nat × SockState)) (sid : Nat) (st : SockState) :
    List (Nat × SockState) :=
  l.map (fun p => if p.1 = sid then (p.1, st) else p)

/-- `socket.close()`: a CONNECTING or OPEN socket moves to CLOSING (its close
event fires later); CLOSING/CLOSED sockets are unaffected. -/
def closeSock (l : List (Nat × SockState)) (sid : Nat) : List (Nat × SockState) :=
  l.map (fun p =>
    if p.1 = sid then
      (p.1, match p.2 with
            | .connecting => .closing
            | .opened => .closing
            | s => s)
    else p)

/-- `this.ws?.readyState`: ready-state of the socket currently referenced by
the manager, `none` when `this.ws` is null. -/
def wsReadyState (s : MState) : Option SockState :=
  match s.ws with
  | none => none
  | some sid => findSock s.sockets sid

/-- `connect()`, successful-construction path: no-op if the referenced socket
is OPEN; otherwise clears the intentional-close flag and constructs a fresh
socket (CONNECTING), overwriting `this.ws` without closing any previous
socket. -/
def connectOp (s : MState) : MState :=
  if wsReadyState s = some SockState.opened then s
  else
    { s with
      isIntentionallyClosed := false
      sockets := (s.nextId, SockState.connecting) :: s.sockets
      ws := some s.nextId
      nextId := s.nextId + 1 }

/-- `scheduleReconnect()`: stop if the attempt counter has reached the
configured maximum (with JS `|| 10` falsy fallback); otherwise increment the
counter, compute `delay = min(reconnectInterval * 2 ^ (attempts-1), 60000)`
(with `|| 5000` fallback) and start a one-shot timer, overwriting
`this.reconnectTimer` without clearing any previously pending timer. -/
def scheduleReconnect (cfg : WSConfig) (s : MState) : MState :=
  if jsOr cfg.maxReconnectAttempts 10 ≤ s.reconnectAttempts then s
  else
    let attempts := s.reconnectAttempts + 1
    let delay := min (jsOr cfg.reconnectInterval 5000 * 2 ^ (attempts - 1)) 60000
    { s with
      reconnectAttempts := attempts
      pendingReconnects := (s.nextId, delay) :: s.pendingReconnects
      reconnectTimer := some s.nextId
      nextId := s.nextId + 1
      scheduledDelays := s.scheduledDelays ++ [delay] }

/-- `startHeartbeat()`: starts a new `setInterval`, overwriting
`this.heartbeatTimer` without clearing a previously running interval. -/
def startHeartbeat (s : MState) : MState :=
  { s with
    heartbeatTimer := some s.nextId
    runningHeartbeats := s.nextId :: s.runningHeartbeats
    nextId := s.nextId + 1 }

/-- `stopHeartbeat()`: clears the interval referenced by `this.heartbeatTimer`
(only that one) and nulls the field. -/
def stopHeartbeat (s : MState) : MState :=
  match s.heartbeatTimer with
  | some t =>
    { s with
      runningHeartbeats := s.runningHeartbeats.filter (fun x => ¬ x = t)
      heartbeatTimer := none }
  | none => s

/-- `handleOpen()` state effects (the ready-state of the opened socket is set by the
event in `step`): reset the attempt counter to zero, send the subscribe message
(transmission leaves no field), start the heartbeat, invoke connect-observers
(no field effects). -/
def handleOpen (s : MState) : MState :=
  startHeartbeat { s with reconnectAttempts := 0 }

/-- `handleClose()` state effects: stop the heartbeat, invoke
disconnect-observers (no field effects), and schedule a reconnect unless the
close was intentional. -/
def handleClose (cfg : WSConfig) (s : MState) : MState :=
  let s1 := stopHeartbeat s
  if s1.isIntentionallyClosed then s1 else scheduleReconnect cfg s1

/-- `disconnect()`: set the intentional-close flag, clear the pending reconnect
timeout referenced by `this.reconnectTimer` (only that one) and null the field,
stop the heartbeat, then close the referenced socket if present and null
`this.ws`. -/
def disconnectOp (s : MState) : MState :=
  let s1 := { s with isIntentionallyClosed := true }
  let s2 :=
    match s1.reconnectTimer with
    | some t =>
      { s1 with
        pendingReconnects := s1.pendingReconnects.filter (fun p => ¬ p.1 = t)
        reconnectTimer := none }
    | none => s1
  let s3 := stopHeartbeat s2
  match s3.ws with
  | some sid => { s3 with sockets := closeSock s3.sockets sid, ws := none }
  | none => s3

/-- Inbound socket data after `JSON.parse`: either the parse threw
(`malformed`) or it produced an envelope with a string `type` and a `payload`. -/
inductive Inbound where
  | malformed
  | envelope (type : String) (payload : Json)

/-- Argument with which a message handler is invoked: the `payload` of the envelope
(exact-type handlers) or the full envelope (wildcard handlers). -/
inductive Arg where
  | payload (p : Json)
  | envelope (t : String) (p : Json)

/-- `this.messageHandlers.get(type) || []` on the handler registry. -/
def getHandlers : List (String × List Handler) → String → List Handler
  | [], _ => []
  | (k, hs) :: rest, t => if k = t then hs else getHandlers rest t

/-- The message-handler dispatch loop: each invocation is wrapped in its own
try/catch, so every handler in the list is invoked (a throwing handler is
logged and the loop continues). -/
def forEachCaught : List Handler → Arg → List (Nat × Arg)
  | [], _ => []
  | h :: rest, a => (h.id, a) :: forEachCaught rest a

/-- The observer dispatch loop `handlers.forEach(handler => handler())` used
for connect- and disconnect-observers: there is no try/catch, so iteration
stops at the first observer that throws and the exception escapes.  Returns
the invoked observer ids in order and whether an exception escaped. -/
def forEachNoCatch : List Handler → List Nat × Bool
  | [] => ([], false)
  | h :: rest =>
    if h.throwsEx then ([h.id], true)
    else
      let r := forEachNoCatch rest
      (h.id :: r.1, r.2)

/-- `handleMessage`: whole body in a try/catch (a parse failure is logged and
dropped); a `"pong"` envelope returns before any dispatch; otherwise the
exact-type handlers are invoked with the payload, then the wildcard handlers
with the full envelope, each in its own try/catch.  Returns the invocation
list and whether an exception escaped the callback (never, by the catches). -/
def handleMessageRun (reg : List (String × List Handler)) (d : Inbound) :
    List (Nat × Arg) × Bool :=
  match d with
  | .malformed => ([], false)
  | .envelope t p =>
    if t = "pong" then ([], false)
    else
      (forEachCaught (getHandlers reg t) (Arg.payload p) ++
        forEachCaught (getHandlers reg "*") (Arg.envelope t p), false)

/-- Events of the single-threaded event loop: the public API calls, the four
socket callbacks (with the socket handle they are bound to), and timer
firings.  `connectFailCall` is `connect()` when the `new WebSocket`
constructor throws (the catch branch schedules a reconnect). -/
inductive Ev where
  | connectCall
  | connectFailCall
  | disconnectCall
  | sendCall (msg : Json)
  | sockOpen (sid : Nat)
  | sockMsg (sid : Nat) (d : Inbound)
  | sockErr (sid : Nat)
  | sockClose (sid : Nat)
  | fireReconnect (t : Nat)
  | fireHeartbeat (t : Nat)

/-- One event-loop step.  Socket events are enabled only in the ready-states
from which a browser socket can emit them (open from CONNECTING; close from
CONNECTING/OPEN/CLOSING, each socket closing once); a one-shot timer fires only
while pending and is consumed; an interval firing, an error callback, a
message callback and `send` assign no manager fields. -/
def step (cfg : WSConfig) (e : Ev) (s : MState) : MState :=
  match e with
  | .connectCall => connectOp s
  | .connectFailCall =>
    if wsReadyState s = some SockState.opened then s
    else scheduleReconnect cfg { s with isIntentionallyClosed := false }
  | .disconnectCall => disconnectOp s
  | .sendCall _ => s
  | .sockOpen sid =>
    if findSock s.sockets sid = some SockState.connecting then
      handleOpen { s with sockets := setSock s.sockets sid SockState.opened }
    else s
  | .sockMsg _ _ => s
  | .sockErr _ => s
  | .sockClose sid =>
    match findSock s.sockets sid with
    | some SockState.connecting =>
      handleClose cfg { s with sockets := setSock s.sockets sid SockState.closed }
    | some SockState.opened =>
      handleClose cfg { s with sockets := setSock s.sockets sid SockState.closed }
    | some SockState.closing =>
      handleClose cfg { s with sockets := setSock s.sockets sid SockState.closed }
    | _ => s
  | .fireReconnect t =>
    if s.pendingReconnects.any (fun p => p.1 = t) then
      connectOp { s with pendingReconnects := s.pendingReconnects.filter (fun p => ¬ p.1 = t) }
    else s
  | .fireHeartbeat _ => s

/-- Replay a sequence of events. -/
def run (cfg : WSConfig) (evs : List Ev) (s : MState) : MState :=
  evs.foldl (fun s e => step cfg e s) s

/-- A freshly constructed `WebSocketManager`: all fields null/zero/empty, the
intentional-close flag false, no sockets or timers in the environment. -/
def initState : MState :=
  { ws := none
    sockets := []
    messageHandlers := []
    connectionHandlers := []
    disconnectionHandlers := []
    reconnectAttempts := 0
    reconnectTimer := none
    heartbeatTimer := none
    isIntentionallyClosed := false
    pendingReconnects := []
    runningHeartbeats := []
    nextId := 0
    scheduledDelays := [] }

/-- `send(message)`: transmits `JSON.stringify(message)` and returns true only
when the referenced socket is OPEN; otherwise returns false and transmits
nothing.  Total (the source throws nowhere on tree-shaped values: the
ready-state guard precedes the transmission). -/
def sendOp (s : MState) (msg : Json) : Bool × List String :=
  if wsReadyState s = some SockState.opened then (true, [stringifyJson msg])
  else (false, [])

/-- The connect-observer loop of `handleOpen`:
`this.connectionHandlers.forEach(handler => handler())` (no try/catch). -/
def connectObserversRun (s : MState) : List Nat × Bool :=
  forEachNoCatch s.connectionHandlers

/-- The disconnect-observer loop of `handleClose`:
`this.disconnectionHandlers.forEach(handler => handler())` (no try/catch). -/
def disconnectObserversRun (s : MState) : List Nat × Bool :=
  forEachNoCatch s.disconnectionHandlers

/-- A config carrying only a url, every optional field absent (the defaults
case). -/
def cfgDefault : WSConfig :=
  { url := "", reconnectInterval := none, maxReconnectAttempts := none,
    heartbeatInterval := none, channels := [] }

/-- Number of sockets ever constructed by the manager that are not CLOSED. -/
def nonClosedSockets (s : MState) : Nat :=
  (s.sockets.filter (fun p => decide (¬ p.2 = SockState.closed))).length

/-- The closed sockets left behind after `k` failed connection rounds: ids
`0, 2, ..., 2(k-1)`, most recent first. -/
def closedSocks : Nat → List (Nat × SockState)
  | 0 => []
  | k+1 => (2*k, SockState.closed) :: closedSocks k

/-- Manager state after `connect()` followed by `k` rounds of unintentional
close plus backoff-timer firing, for a config with positive configured
`reconnectInterval = base` and enough attempts left: socket `2k` is
connecting, `k` attempts used, the `k` scheduled delays logged. -/
def c1State (base k : Nat) : MState :=
  { ws := some (2*k)
    sockets := (2*k, SockState.connecting) :: closedSocks k
    messageHandlers := []
    connectionHandlers := []
    disconnectionHandlers := []
    reconnectAttempts := k
    reconnectTimer := if k = 0 then none else some (2*k - 1)
    heartbeatTimer := none
    isIntentionallyClosed := false
    pendingReconnects := []
    runningHeartbeats := []
    nextId := 2*k + 1
    scheduledDelays := (List.range k).map (fun i => min (base * 2 ^ i) 60000) }

/-- `k` failure rounds: the current socket (id `2i`) closes unintentionally
and the scheduled backoff timer (id `2i+1`) fires, reconnecting. -/
def c1rounds : Nat → List Ev
  | 0 => []
  | k+1 => c1rounds k ++ [Ev.sockClose (2*k), Ev.fireReconnect (2*k+1)]

/-- The C1 scenario: `connect()`, then `n` consecutive unintentional closes
(each followed by its backoff timer firing), then an `(n+1)`-th unintentional
close. -/
def c1trace (n : Nat) : List Ev :=
  Ev.connectCall :: (c1rounds n ++ [Ev.sockClose (2*n)])

/-- Invariant after a clean `disconnect()`: flag set, no reconnect timeout
pending anywhere, no referenced socket. -/
def c2Inv (s : MState) : Prop :=
  s.isIntentionallyClosed = true ∧ s.pendingReconnects = [] ∧ s.ws = none

/-- State of the `useWebSocket` hook (`useWebSocket.ts`): `wsRef`,
`reconnectTimeoutRef` and `reconnectAttempts` are the refs of the hook,
`isConnected` the React state; the socket and pending-timeout environment are
tracked as for the manager.  Note the hook has no intentional-close flag field
at all. -/
structure HookState where
  wsRef : Option Nat
  sockets : List (Nat × SockState)
  reconnectTimeoutRef : Option Nat
  pendingTimeouts : List (Nat × Nat)
  reconnectAttempts : Nat
  isConnected : Bool
  nextId : Nat

/-- Initial hook state. -/
def hookInit : HookState :=
  { wsRef := none, sockets := [], reconnectTimeoutRef := none, pendingTimeouts := [],
    reconnectAttempts := 0, isConnected := false, nextId := 0 }

/-- The `connect` callback of the hook: constructs a new socket and stores it
in `wsRef` — with no open-socket guard at all. -/
def hookConnect (s : HookState) : HookState :=
  { s with
    sockets := (s.nextId, SockState.connecting) :: s.sockets
    wsRef := some s.nextId
    nextId := s.nextId + 1 }

/-- `ws.onopen`: set connected, reset the attempt counter (the subscribe send
leaves no field). -/
def hookOpen (s : HookState) (sid : Nat) : HookState :=
  if findSock s.sockets sid = some SockState.connecting then
    { s with
      sockets := setSock s.sockets sid SockState.opened
      isConnected := true
      reconnectAttempts := 0 }
  else s

/-- `ws.onclose`: set disconnected; if fewer than 5 attempts were used,
increment the counter and schedule a reconnect timeout with delay
`min(1000 * 2 ^ attempts, 30000)` (exponent is the incremented counter).
There is no intentional-close check of any kind. -/
def hookClose (s : HookState) (sid : Nat) : HookState :=
  match findSock s.sockets sid with
  | some SockState.connecting | some SockState.opened | some SockState.closing =>
    let s1 := { s with
      sockets := setSock s.sockets sid SockState.closed
      isConnected := false }
    if s1.reconnectAttempts < 5 then
      { s1 with
        reconnectAttempts := s1.reconnectAttempts + 1
        pendingTimeouts :=
          (s1.nextId, min (1000 * 2 ^ (s1.reconnectAttempts + 1)) 30000) :: s1.pendingTimeouts
        reconnectTimeoutRef := some s1.nextId
        nextId := s1.nextId + 1 }
    else s1
  | _ => s

/-- The `disconnect` callback of the hook: clears the referenced reconnect
timeout (without nulling the ref) and closes and nulls the socket.  It sets no
flag, so the close event of the socket it just closed still schedules a
reconnect. -/
def hookDisconnect (s : HookState) : HookState :=
  let s1 :=
    match s.reconnectTimeoutRef with
    | some t => { s with pendingTimeouts := s.pendingTimeouts.filter (fun p => ¬ p.1 = t) }
    | none => s
  match s1.wsRef with
  | some sid => { s1 with sockets := closeSock s1.sockets sid, wsRef := none }
  | none => s1

/-- A pending reconnect timeout of the hook fires: `connect()` runs. -/
def hookFire (s : HookState) (t : Nat) : HookState :=
  if s.pendingTimeouts.any (fun p => p.1 = t) then
    hookConnect { s with pendingTimeouts := s.pendingTimeouts.filter (fun p => ¬ p.1 = t) }
  else s

/-- `getWebSocketManager(config?)` over the module-level singleton
`wsManager`: creates the manager only when the singleton is still null AND a
config was passed; returns `wsManager!` — the raw, possibly-null singleton
behind an unchecked non-null assertion.  A manager instance is identified by
the config it was constructed from.  Returns (new singleton, returned value). -/
def getWSManager (config : Option WSConfig) (wsManager : Option WSConfig) :
    Option WSConfig × Option WSConfig :=
  match wsManager, config with
  | none, some c => (some c, some c)
  | st, _ => (st, st)

/-- Replay a sequence of `getWebSocketManager` calls, collecting the final
singleton and each returned value. -/
def runCalls : List (Option WSConfig) → Option WSConfig →
    Option WSConfig × List (Option WSConfig)
  | [], st => (st, [])
  | c :: cs, st =>
    let r := getWSManager c st
    let rest := runCalls cs r.1
    (rest.1, r.2 :: rest.2)

/-- Membership in the caught dispatch loop: a handler is invoked with argument
`a` exactly when it occurs in the list (no exception of its own or of a sibling ever removes it, each call being wrapped in try/catch). -/
theorem mem_forEachCaught (hs : List Handler) (a : Arg) (i : Nat) (b : Arg) :
    (i, b) ∈ forEachCaught hs a ↔ (∃ h, h ∈ hs ∧ Handler.id h = i) ∧ b = a := by
  induction hs with
  | nil => simp [forEachCaught]
  | cons h rest ih =>
    simp only [forEachCaught, List.mem_cons, ih, Prod.mk.injEq]
    constructor
    · rintro (⟨h1, h2⟩ | ⟨⟨g, hg1, hg2⟩, h3⟩)
      · exact ⟨⟨h, Or.inl rfl, h1.symm⟩, h2⟩
      · exact ⟨⟨g, Or.inr hg1, hg2⟩, h3⟩
    · rintro ⟨⟨g, (rfl | hg1), hg2⟩, rfl⟩
      · exact Or.inl ⟨hg2.symm, rfl⟩
      · exact Or.inr ⟨⟨g, hg1, hg2⟩, rfl⟩

/-- C3: for every inbound message parsing to an envelope with type `t`: a
`"pong"` envelope invokes no handler at all; otherwise a pair `(i, a)` is an
invocation exactly when a handler with id `i` is registered for exactly `t` and
`a` is the payload of the message, or a handler with id `i` is registered for the
wildcard `"*"` and `a` is the full envelope — so no handler registered for any
other type is invoked. -/
theorem c3_typed_dispatch (reg : List (String × List Handler)) (t : String) (p : Json) :
    (t = "pong" → handleMessageRun reg (Inbound.envelope t p) = ([], false)) ∧
    (¬ t = "pong" →
      ∀ i a, (i, a) ∈ (handleMessageRun reg (Inbound.envelope t p)).1 ↔
        ((∃ h, h ∈ getHandlers reg t ∧ Handler.id h = i) ∧ a = Arg.payload p) ∨
        ((∃ h, h ∈ getHandlers reg "*" ∧ Handler.id h = i) ∧ a = Arg.envelope t p)) := by
  constructor
  · intro ht
    simp [handleMessageRun, ht]
  · intro ht i a
    simp [handleMessageRun, ht, List.mem_append, mem_forEachCaught]

/-- Witness for C3 at a concrete registry and message: the message of type
`"alert"` reaches the `"alert"` handler (with the payload) and the wildcard
handler (with the envelope), and not the `"price_update"` handler; a `"pong"`
message reaches nobody. -/
theorem c3_typed_dispatch_witness :
    (handleMessageRun
        [("alert", [⟨0, false⟩]), ("price_update", [⟨1, false⟩]), ("*", [⟨2, false⟩])]
        (Inbound.envelope "pong" Json.null) = ([], false)) ∧
    ((0, Arg.payload (Json.num 7)) ∈
      (handleMessageRun
        [("alert", [⟨0, false⟩]), ("price_update", [⟨1, false⟩]), ("*", [⟨2, false⟩])]
        (Inbound.envelope "alert" (Json.num 7))).1) ∧
    ((2, Arg.envelope "alert" (Json.num 7)) ∈
      (handleMessageRun
        [("alert", [⟨0, false⟩]), ("price_update", [⟨1, false⟩]), ("*", [⟨2, false⟩])]
        (Inbound.envelope "alert" (Json.num 7))).1) ∧
    (∀ a, (1, a) ∉
      (handleMessageRun
        [("alert", [⟨0, false⟩]), ("price_update", [⟨1, false⟩]), ("*", [⟨2, false⟩])]
        (Inbound.envelope "alert" (Json.num 7))).1) := by
  refine ⟨(c3_typed_dispatch _ "pong" Json.null).1 rfl, ?_, ?_, ?_⟩
  · rw [(c3_typed_dispatch _ "alert" (Json.num 7)).2 (by decide) 0 _]
    exact Or.inl ⟨⟨⟨0, false⟩, by simp [getHandlers]⟩, rfl⟩
  · rw [(c3_typed_dispatch _ "alert" (Json.num 7)).2 (by decide) 2 _]
    exact Or.inr ⟨⟨⟨2, false⟩, by simp [getHandlers]⟩, rfl⟩
  · intro a
    rw [(c3_typed_dispatch _ "alert" (Json.num 7)).2 (by decide) 1 a]
    rintro (⟨⟨h, hm, hid⟩, _⟩ | ⟨⟨h, hm, hid⟩, _⟩) <;>
      simp [getHandlers] at hm <;> simp [hm] at hid

/-- C6: a handler registered for the arriving (non-`"pong"`) type is always
invoked with the payload, whatever the `throwsEx` flags of itself and of the
handlers registered before it — each invocation sits in its own try/catch, so a
sibling exception cannot prevent it, and no exception escapes the callback. -/
theorem c6_handler_isolation (reg : List (String × List Handler)) (t : String)
    (p : Json) (h : Handler) (ht : ¬ t = "pong") (hm : h ∈ getHandlers reg t) :
    (Handler.id h, Arg.payload p) ∈ (handleMessageRun reg (Inbound.envelope t p)).1 ∧
    (handleMessageRun reg (Inbound.envelope t p)).2 = false := by
  constructor
  · show _ ∈ ((if t = "pong" then _ else _) : List (Nat × Arg) × Bool).1
    rw [if_neg ht]
    exact List.mem_append_left _ ((mem_forEachCaught _ _ _ _).mpr ⟨⟨h, hm, rfl⟩, rfl⟩)
  · simp [handleMessageRun, ht]

/-- Witness for C6, the scenario of the spec: A (id 0, throws) and B (id 1) both
registered for `"alert"`, A before B; an `"alert"` message arrives; B is still
invoked and receives the payload, and no exception escapes. -/
theorem c6_handler_isolation_witness :
    (1, Arg.payload (Json.str "x")) ∈
      (handleMessageRun [("alert", [⟨0, true⟩, ⟨1, false⟩])]
        (Inbound.envelope "alert" (Json.str "x"))).1 ∧
    (handleMessageRun [("alert", [⟨0, true⟩, ⟨1, false⟩])]
      (Inbound.envelope "alert" (Json.str "x"))).2 = false :=
  c6_handler_isolation [("alert", [⟨0, true⟩, ⟨1, false⟩])] "alert" (Json.str "x")
    ⟨1, false⟩ (by decide) (by simp [getHandlers])

/-- C7: an inbound message whose data fails JSON parsing produces zero handler
invocations, lets no exception escape the callback (the parse error is caught
and logged), and the socket-message event leaves every manager field unchanged
(`handleMessage` assigns no field on any path). -/
theorem c7_malformed_dropped (cfg : WSConfig) (s : MState) (sid : Nat)
    (reg : List (String × List Handler)) :
    handleMessageRun reg Inbound.malformed = ([], false) ∧
    step cfg (Ev.sockMsg sid Inbound.malformed) s = s := by
  exact ⟨rfl, rfl⟩

/-- C8: `send(message)` returns true exactly when the referenced socket exists
and is OPEN; it transmits the JSON serialization of the message exactly in
that case and transmits nothing otherwise (and is a total function: no
exception on any state or message). -/
theorem c8_send_guarded (s : MState) (msg : Json) :
    ((sendOp s msg).1 = true ↔ wsReadyState s = some SockState.opened) ∧
    (sendOp s msg).2 =
      (if wsReadyState s = some SockState.opened then [stringifyJson msg] else []) := by
  unfold sendOp
  by_cases h : wsReadyState s = some SockState.opened <;> simp [h]

/-- Witness for C8: on a manager whose socket is OPEN, `send` returns true and
transmits the serialized message; on the fresh manager (no socket), it returns
false and transmits nothing. -/
theorem c8_send_guarded_witness :
    (sendOp { initState with ws := some 0, sockets := [(0, SockState.opened)] }
        (Json.str "hi")).1 = true ∧
    (sendOp { initState with ws := some 0, sockets := [(0, SockState.opened)] }
        (Json.str "hi")).2 = ["\"hi\""] ∧
    (sendOp initState (Json.str "hi")).1 = false ∧
    (sendOp initState (Json.str "hi")).2 = [] := by
  have h1 := c8_send_guarded
    { initState with ws := some 0, sockets := [(0, SockState.opened)] } (Json.str "hi")
  have h2 := c8_send_guarded initState (Json.str "hi")
  refine ⟨h1.1.mpr (by decide), ?_, ?_, ?_⟩
  · rw [h1.2]; simp [wsReadyState, findSock, initState, stringifyJson]
  · by_contra hc
    rw [Bool.not_eq_false] at hc
    exact (by decide : ¬ wsReadyState initState = some SockState.opened) (h2.1.mp hc)
  · rw [h2.2]; simp [wsReadyState, initState]

/-- Counterexample to C4: two connect-observers (id 0, which throws, then id 1)
and two disconnect-observers (id 2, which throws, then id 3).  The observer
loops of `handleOpen`/`handleClose` have no try/catch, so observer 0 aborts the
loop before observer 1 runs (and likewise 2 before 3), and the exception
escapes — contradicting the claim that each observer invocation is isolated. -/
theorem c4_counterexample :
    (connectObserversRun
        { initState with connectionHandlers := [⟨0, true⟩, ⟨1, false⟩] }).1 = [0] ∧
    (1 : Nat) ∉ (connectObserversRun
        { initState with connectionHandlers := [⟨0, true⟩, ⟨1, false⟩] }).1 ∧
    (connectObserversRun
        { initState with connectionHandlers := [⟨0, true⟩, ⟨1, false⟩] }).2 = true ∧
    (disconnectObserversRun
        { initState with disconnectionHandlers := [⟨2, true⟩, ⟨3, false⟩] }).1 = [2] ∧
    (3 : Nat) ∉ (disconnectObserversRun
        { initState with disconnectionHandlers := [⟨2, true⟩, ⟨3, false⟩] }).1 := by
  decide

/-- C4 as amended: the observer loop invokes the registered observers in order
only up to and including the first one that throws — observers registered after
it are not invoked — and an exception escapes the loop exactly when some
invoked observer throws.  (Message handlers, by contrast, are isolated: see the
C6 theorem.) -/
theorem c4_amended_observers_stop_at_first_throw (hs : List Handler) :
    (forEachNoCatch hs).1 =
      (hs.take (hs.findIdx (fun h => h.throwsEx) + 1)).map Handler.id ∧
    (forEachNoCatch hs).2 = hs.any (fun h => h.throwsEx) := by
  induction hs with
  | nil => simp [forEachNoCatch]
  | cons h rest ih =>
    by_cases hth : h.throwsEx
    · simp [forEachNoCatch, hth, List.findIdx_cons]
    · simp only [forEachNoCatch, hth, if_neg, Bool.false_eq_true, not_false_eq_true,
        List.findIdx_cons, cond_false, List.any_cons, Bool.false_or, List.take_succ_cons,
        List.map_cons]
      exact ⟨by rw [ih.1], by rw [ih.2]⟩

/-- C5 failing input: the `connect()` guard of the manager only returns early on an
OPEN socket, so calling `connect()` while a socket is still CONNECTING
constructs a second socket, and when both open, each `handleOpen` starts a
heartbeat interval without clearing the previous one (trace A: two non-closed
sockets and two running heartbeat intervals).  Likewise `connect()` never
cancels a pending reconnect timeout and `scheduleReconnect` overwrites
`this.reconnectTimer` without clearing it, so two reconnect timeouts can be
pending at once (trace B).  This contradicts the claimed at-most-one invariant. -/
theorem c5_resource_leak :
    nonClosedSockets
        (run cfgDefault [Ev.connectCall, Ev.connectCall, Ev.sockOpen 0, Ev.sockOpen 1]
          initState) = 2 ∧
    (run cfgDefault [Ev.connectCall, Ev.connectCall, Ev.sockOpen 0, Ev.sockOpen 1]
          initState).runningHeartbeats.length = 2 ∧
    (run cfgDefault [Ev.connectCall, Ev.sockClose 0, Ev.connectCall, Ev.sockClose 2]
          initState).pendingReconnects.length = 2 := by
  decide

/-- Counterexample to C2: connect; the socket fails (reconnect timeout 1
scheduled); the caller invokes `connect()` manually while timeout 1 is still
pending; the new socket fails too (`scheduleReconnect` overwrites
`this.reconnectTimer` with timeout 3, leaking timeout 1); `disconnect()` then
cancels only timeout 3.  After `disconnect()` — with no subsequent explicit
connect — the leaked timeout 1 is still pending, and when it fires it calls
`connect()`: a new socket (id 4) is constructed and the intentional-close flag
is cleared.  So an automatic `connect()` does occur after `disconnect()`. -/
theorem c2_counterexample :
    (run cfgDefault
        [Ev.connectCall, Ev.sockClose 0, Ev.connectCall, Ev.sockClose 2,
          Ev.disconnectCall] initState).isIntentionallyClosed = true ∧
    (run cfgDefault
        [Ev.connectCall, Ev.sockClose 0, Ev.connectCall, Ev.sockClose 2,
          Ev.disconnectCall] initState).ws = none ∧
    (run cfgDefault
        [Ev.connectCall, Ev.sockClose 0, Ev.connectCall, Ev.sockClose 2,
          Ev.disconnectCall] initState).pendingReconnects = [(1, 5000)] ∧
    (run cfgDefault
        [Ev.connectCall, Ev.sockClose 0, Ev.connectCall, Ev.sockClose 2,
          Ev.disconnectCall] initState).sockets.length = 2 ∧
    (run cfgDefault
        [Ev.connectCall, Ev.sockClose 0, Ev.connectCall, Ev.sockClose 2,
          Ev.disconnectCall, Ev.fireReconnect 1] initState).ws = some 4 ∧
    (run cfgDefault
        [Ev.connectCall, Ev.sockClose 0, Ev.connectCall, Ev.sockClose 2,
          Ev.disconnectCall, Ev.fireReconnect 1] initState).sockets.length = 3 ∧
    (run cfgDefault
        [Ev.connectCall, Ev.sockClose 0, Ev.connectCall, Ev.sockClose 2,
          Ev.disconnectCall, Ev.fireReconnect 1] initState).isIntentionallyClosed
      = false := by
  decide

/-- Counterexample to C1 at the boundary values, from the JS falsy coercion
`x || d`: with configured `maxReconnectAttempts = 0` the claim says the first
unintentional close schedules no attempt, but `0 || 10` makes the effective
maximum 10 and an attempt (delay 5000) is scheduled; with configured
`reconnectInterval = 0` the claim says the first delay is
`min(0 * 2^0, 60000) = 0`, but `0 || 5000` yields delay 5000. -/
theorem c1_counterexample :
    (run { cfgDefault with reconnectInterval := some 5000, maxReconnectAttempts := some 0 }
        [Ev.connectCall, Ev.sockClose 0] initState).scheduledDelays = [5000] ∧
    (run { cfgDefault with reconnectInterval := some 5000, maxReconnectAttempts := some 0 }
        [Ev.connectCall, Ev.sockClose 0] initState).reconnectAttempts = 1 ∧
    (run { cfgDefault with reconnectInterval := some 0, maxReconnectAttempts := some 3 }
        [Ev.connectCall, Ev.sockClose 0] initState).scheduledDelays = [5000] := by
  decide

/-- Updating a socket id at least `2k` leaves the closed sockets of the first
`k` rounds untouched (their ids are below `2k`). -/
theorem map_setSock_closedSocks (k j : Nat) (st : SockState) (h : 2*k ≤ j) :
    List.map (fun p => if p.1 = j then (p.1, st) else p) (closedSocks k) = closedSocks k := by
  induction k with
  | zero => rfl
  | succ n ih =>
    have h2 : 2*n ≤ j := by omega
    have hne : ¬ (2*n = j) := by omega
    simp only [closedSocks, List.map_cons, if_neg hne]
    rw [ih h2]

/-- One more failure round advances the C1 scenario state by one, scheduling
the delay `min(base * 2 ^ k, 60000)`. -/
theorem c1_round_step (cfg : WSConfig) (N base k : Nat)
    (hN : cfg.maxReconnectAttempts = some N) (hb : cfg.reconnectInterval = some base)
    (hN1 : 1 ≤ N) (hb1 : 1 ≤ base) (hk : k < N) :
    run cfg [Ev.sockClose (2*k), Ev.fireReconnect (2*k+1)] (c1State base k) =
      c1State base (k+1) := by
  have hNe : ¬ N = 0 := by omega
  have hbe : ¬ base = 0 := by omega
  have hkN : ¬ (N ≤ k) := by omega
  simp only [run, List.foldl]
  simp only [step, c1State, findSock, handleClose, stopHeartbeat, scheduleReconnect,
    connectOp, wsReadyState, setSock, jsOr, hN, hb, hNe, hkN, startHeartbeat, handleOpen,
    List.map_cons]
  simp only [map_setSock_closedSocks k (2*k) SockState.closed (le_refl _)]
  simp [hNe, hbe, hkN, List.range_succ, closedSocks, Nat.mul_succ]
  simp [findSock]

/-- Replaying a concatenation is sequential replay. -/
theorem run_append (cfg : WSConfig) (a b : List Ev) (s : MState) :
    run cfg (a ++ b) s = run cfg b (run cfg a s) := by
  simp [run, List.foldl_append]

/-- Replaying `k ≤ N` failure rounds from the freshly connected state yields
the round-`k` state. -/
theorem c1_rounds_run (cfg : WSConfig) (N base : Nat)
    (hN : cfg.maxReconnectAttempts = some N) (hb : cfg.reconnectInterval = some base)
    (hN1 : 1 ≤ N) (hb1 : 1 ≤ base) (k : Nat) (hk : k ≤ N) :
    run cfg (c1rounds k) (c1State base 0) = c1State base k := by
  induction k with
  | zero => rfl
  | succ n ih =>
    rw [c1rounds, run_append, ih (by omega),
      c1_round_step cfg N base n hN hb hN1 hb1 (by omega)]

/-- `connect()` on a fresh manager yields the round-0 state. -/
theorem c1_connect_init (cfg : WSConfig) (base : Nat) :
    run cfg [Ev.connectCall] initState = c1State base 0 := by
  rfl

/-- The `(N+1)`-th unintentional close: `scheduleReconnect` hits the attempt
cap and changes nothing beyond marking the socket closed — no new timer, no
new delay logged. -/
theorem c1_final_close (cfg : WSConfig) (N base : Nat)
    (hN : cfg.maxReconnectAttempts = some N) (hN1 : 1 ≤ N) :
    step cfg (Ev.sockClose (2*N)) (c1State base N) =
      { c1State base N with sockets := (2*N, SockState.closed) :: closedSocks N } := by
  have hNe : ¬ N = 0 := by omega
  simp only [step, c1State, findSock, handleClose, stopHeartbeat, scheduleReconnect,
    jsOr, hN, List.map_cons, setSock]
  simp only [map_setSock_closedSocks N (2*N) SockState.closed (le_refl _)]
  simp [hNe]

/-- `connect()` leaves the attempt counter unchanged. -/
theorem reconnectAttempts_connectOp (s : MState) :
    (connectOp s).reconnectAttempts = s.reconnectAttempts := by
  unfold connectOp; split <;> rfl

/-- `stopHeartbeat()` leaves the attempt counter unchanged. -/
theorem reconnectAttempts_stopHeartbeat (s : MState) :
    (stopHeartbeat s).reconnectAttempts = s.reconnectAttempts := by
  unfold stopHeartbeat; split <;> rfl

/-- `scheduleReconnect()` never decreases the attempt counter. -/
theorem reconnectAttempts_scheduleReconnect (cfg : WSConfig) (s : MState) :
    s.reconnectAttempts ≤ (scheduleReconnect cfg s).reconnectAttempts := by
  unfold scheduleReconnect; split
  · exact le_refl _
  · simp

/-- `disconnect()` leaves the attempt counter unchanged. -/
theorem reconnectAttempts_disconnectOp (s : MState) :
    (disconnectOp s).reconnectAttempts = s.reconnectAttempts := by
  rcases hrt : s.reconnectTimer with _ | t <;>
    rcases hhb : s.heartbeatTimer with _ | u <;>
    rcases hws : s.ws with _ | sid <;>
    simp [disconnectOp, stopHeartbeat, hrt, hhb, hws]

/-- The close callback never decreases the attempt counter. -/
theorem reconnectAttempts_handleClose (cfg : WSConfig) (s : MState) :
    s.reconnectAttempts ≤ (handleClose cfg s).reconnectAttempts := by
  rw [handleClose]
  split
  · rw [reconnectAttempts_stopHeartbeat]
  · exact le_trans (le_of_eq (reconnectAttempts_stopHeartbeat s).symm)
      (reconnectAttempts_scheduleReconnect cfg (stopHeartbeat s))

/-- No event other than a socket open ever decreases the attempt counter: the
counter resets to zero only in `handleOpen`. -/
theorem reconnectAttempts_step_mono (cfg : WSConfig) (s : MState) (e : Ev)
    (he : ∀ sid, ¬ e = Ev.sockOpen sid) :
    s.reconnectAttempts ≤ (step cfg e s).reconnectAttempts := by
  cases e with
  | connectCall => rw [step, reconnectAttempts_connectOp]
  | connectFailCall =>
    rw [step]; split
    · exact le_refl _
    · exact reconnectAttempts_scheduleReconnect cfg
        { s with isIntentionallyClosed := false }
  | disconnectCall => rw [step, reconnectAttempts_disconnectOp]
  | sendCall msg => exact le_refl _
  | sockOpen sid => exact absurd rfl (he sid)
  | sockMsg sid d => exact le_refl _
  | sockErr sid => exact le_refl _
  | sockClose sid =>
    rw [step]
    split <;>
      first
        | exact le_refl _
        | exact reconnectAttempts_handleClose cfg
            { s with sockets := setSock s.sockets sid SockState.closed }
  | fireReconnect t =>
    rw [step]; split
    · rw [reconnectAttempts_connectOp]
    · exact le_refl _
  | fireHeartbeat t => exact le_refl _

/-- C1 as amended: for a configured `maxReconnectAttempts = N` and configured
reconnect base interval `base`, PROVIDED both are nonzero (the JS `|| default`
falsy coercion in `scheduleReconnect` replaces a configured 0 by the default —
see the C1 counterexample), after `N` consecutive unintentional closes exactly
`N` reconnect attempts are scheduled, the k-th with delay
`min(base * 2 ^ (k-1), 60000)`, the `(N+1)`-th unintentional close schedules no
further attempt, and the attempt counter is never reset by any event other
than a socket open. -/
theorem c1_amended_backoff (cfg : WSConfig) (N base : Nat)
    (hN : cfg.maxReconnectAttempts = some N) (hb : cfg.reconnectInterval = some base)
    (hN1 : 1 ≤ N) (hb1 : 1 ≤ base) :
    (run cfg (c1trace N) initState).scheduledDelays =
      (List.range N).map (fun k => min (base * 2 ^ k) 60000) ∧
    (run cfg (c1trace N) initState).scheduledDelays.length = N ∧
    (run cfg (c1trace N) initState).reconnectAttempts = N ∧
    (run cfg (c1trace N) initState).pendingReconnects = [] ∧
    (∀ (s : MState) (e : Ev), (∀ sid, ¬ e = Ev.sockOpen sid) →
      s.reconnectAttempts ≤ (step cfg e s).reconnectAttempts) := by
  have hrun : run cfg (c1trace N) initState =
      { c1State base N with sockets := (2*N, SockState.closed) :: closedSocks N } := by
    have h0 : run cfg (c1trace N) initState =
        run cfg (c1rounds N ++ [Ev.sockClose (2*N)]) (run cfg [Ev.connectCall] initState) := by
      rfl
    rw [h0, c1_connect_init cfg base, run_append,
      c1_rounds_run cfg N base hN hb hN1 hb1 N (le_refl N)]
    show step cfg (Ev.sockClose (2*N)) (c1State base N) = _
    exact c1_final_close cfg N base hN hN1
  refine ⟨?_, ?_, ?_, ?_, fun s e he => reconnectAttempts_step_mono cfg s e he⟩ <;>
    rw [hrun] <;> simp [c1State]

/-- Witness for C1 as amended at `N = 3`, `base = 1000`: delays 1000, 2000,
4000 and no timer pending after the 4th close. -/
theorem c1_amended_backoff_witness :
    (run { cfgDefault with reconnectInterval := some 1000, maxReconnectAttempts := some 3 }
        (c1trace 3) initState).scheduledDelays = [1000, 2000, 4000] ∧
    (run { cfgDefault with reconnectInterval := some 1000, maxReconnectAttempts := some 3 }
        (c1trace 3) initState).reconnectAttempts = 3 ∧
    (run { cfgDefault with reconnectInterval := some 1000, maxReconnectAttempts := some 3 }
        (c1trace 3) initState).pendingReconnects = [] := by
  have h := c1_amended_backoff
    { cfgDefault with reconnectInterval := some 1000, maxReconnectAttempts := some 3 }
    3 1000 rfl rfl (by decide) (by decide)
  refine ⟨?_, h.2.2.1, h.2.2.2.1⟩
  rw [h.1]
  decide

/-- `disconnect()` always sets the flag, nulls both timer fields and nulls
the socket reference. -/
theorem disconnectOp_fields (s : MState) :
    (disconnectOp s).isIntentionallyClosed = true ∧
    (disconnectOp s).reconnectTimer = none ∧
    (disconnectOp s).heartbeatTimer = none ∧
    (disconnectOp s).ws = none := by
  rcases hrt : s.reconnectTimer with _ | t <;>
    rcases hhb : s.heartbeatTimer with _ | u <;>
    rcases hws : s.ws with _ | sid <;>
    simp [disconnectOp, stopHeartbeat, hrt, hhb, hws]

/-- Any event other than an explicit `connect()` call preserves the
clean-disconnect invariant and constructs no socket. -/
theorem c2_step_preserve (cfg : WSConfig) (e : Ev) (s : MState)
    (h1 : ¬ e = Ev.connectCall) (h2 : ¬ e = Ev.connectFailCall) (hI : c2Inv s) :
    c2Inv (step cfg e s) ∧ (step cfg e s).sockets.length = s.sockets.length := by
  obtain ⟨hflag, hpend, hws⟩ := hI
  cases e with
  | connectCall => exact absurd rfl h1
  | connectFailCall => exact absurd rfl h2
  | disconnectCall =>
    constructor
    · obtain ⟨f1, _, _, f4⟩ := disconnectOp_fields s
      refine ⟨f1, ?_, f4⟩
      rcases hrt : s.reconnectTimer with _ | t <;>
        rcases hhb : s.heartbeatTimer with _ | u <;>
        simp [step, disconnectOp, stopHeartbeat, hrt, hhb, hws, hpend]
    · rcases hrt : s.reconnectTimer with _ | t <;>
        rcases hhb : s.heartbeatTimer with _ | u <;>
        simp [step, disconnectOp, stopHeartbeat, hrt, hhb, hws]
  | sendCall msg => exact ⟨⟨hflag, hpend, hws⟩, rfl⟩
  | sockOpen sid =>
    rw [step]
    split
    · exact ⟨⟨hflag, hpend, hws⟩, by simp [handleOpen, startHeartbeat, setSock]⟩
    · exact ⟨⟨hflag, hpend, hws⟩, rfl⟩
  | sockMsg sid d => exact ⟨⟨hflag, hpend, hws⟩, rfl⟩
  | sockErr sid => exact ⟨⟨hflag, hpend, hws⟩, rfl⟩
  | sockClose sid =>
    rw [step]
    split <;>
      first
        | exact ⟨⟨hflag, hpend, hws⟩, rfl⟩
        | · rw [handleClose]
            split
            · rename_i hcond
              constructor
              · refine ⟨?_, ?_, ?_⟩ <;>
                  (simp [stopHeartbeat, hflag, hpend, hws]
                   split <;> simp [hflag, hpend, hws])
              · simp [stopHeartbeat]
                split <;> simp [setSock]
            · rename_i hcond
              exfalso
              apply hcond
              simp [stopHeartbeat]
              split <;> simp [hflag]
  | fireReconnect t =>
    rw [step]
    split
    · rename_i hcond
      rw [hpend] at hcond
      simp at hcond
    · exact ⟨⟨hflag, hpend, hws⟩, rfl⟩
  | fireHeartbeat t => exact ⟨⟨hflag, hpend, hws⟩, rfl⟩

/-- Any event sequence without explicit `connect()` calls preserves the
clean-disconnect invariant and constructs no socket. -/
theorem c2_run_preserve (cfg : WSConfig) (evs : List Ev) :
    ∀ s : MState, (∀ e ∈ evs, ¬ e = Ev.connectCall ∧ ¬ e = Ev.connectFailCall) →
      c2Inv s →
      c2Inv (run cfg evs s) ∧ (run cfg evs s).sockets.length = s.sockets.length := by
  induction evs with
  | nil => exact fun s _ hI => ⟨hI, rfl⟩
  | cons e rest ih =>
    intro s hno hI
    have he := hno e (List.mem_cons_self e rest)
    have hstep := c2_step_preserve cfg e s he.1 he.2 hI
    have hrest := ih (step cfg e s)
      (fun x hx => hno x (List.mem_cons_of_mem e hx)) hstep.1
    refine ⟨hrest.1, ?_⟩
    show (run cfg rest (step cfg e s)).sockets.length = s.sockets.length
    rw [hrest.2, hstep.2]

/-- C2 as amended: `disconnect()` sets the intentional-close flag, cancels the
referenced reconnect timeout and the heartbeat, closes and nulls the socket;
and PROVIDED no additional (leaked) reconnect timeout beyond the referenced
one was pending at that moment (see the C2 counterexample for the leaked
case), then under every subsequent event sequence without an explicit
`connect()` call the flag stays set, the referenced socket stays null, no
reconnect timeout is ever pending and no socket is ever constructed — no
automatic `connect()` occurs. -/
theorem c2_amended_no_auto_connect (cfg : WSConfig) (s : MState) (evs : List Ev)
    (hno : ∀ e ∈ evs, ¬ e = Ev.connectCall ∧ ¬ e = Ev.connectFailCall)
    (hpend : (disconnectOp s).pendingReconnects = []) :
    (disconnectOp s).isIntentionallyClosed = true ∧
    (disconnectOp s).reconnectTimer = none ∧
    (disconnectOp s).heartbeatTimer = none ∧
    (disconnectOp s).ws = none ∧
    (run cfg evs (disconnectOp s)).isIntentionallyClosed = true ∧
    (run cfg evs (disconnectOp s)).ws = none ∧
    (run cfg evs (disconnectOp s)).pendingReconnects = [] ∧
    (run cfg evs (disconnectOp s)).sockets.length = (disconnectOp s).sockets.length := by
  obtain ⟨f1, f2, f3, f4⟩ := disconnectOp_fields s
  have h := c2_run_preserve cfg evs (disconnectOp s) hno ⟨f1, hpend, f4⟩
  exact ⟨f1, f2, f3, f4, h.1.1, h.1.2.2, h.1.2.1, h.2⟩

/-- Witness for C2 as amended: after one failed connection and a
`disconnect()` that cancels the single pending timeout, replaying a stale
timer fire, a socket close and a heartbeat fire connects nothing. -/
theorem c2_amended_no_auto_connect_witness :
    MState.ws
        (run cfgDefault [Ev.fireReconnect 1, Ev.sockClose 0, Ev.fireHeartbeat 0]
          (disconnectOp (run cfgDefault [Ev.connectCall, Ev.sockClose 0] initState)))
      = none ∧
    MState.pendingReconnects
        (run cfgDefault [Ev.fireReconnect 1, Ev.sockClose 0, Ev.fireHeartbeat 0]
          (disconnectOp (run cfgDefault [Ev.connectCall, Ev.sockClose 0] initState)))
      = [] ∧
    List.length (MState.sockets
        (run cfgDefault [Ev.fireReconnect 1, Ev.sockClose 0, Ev.fireHeartbeat 0]
          (disconnectOp (run cfgDefault [Ev.connectCall, Ev.sockClose 0] initState))))
      = List.length (MState.sockets
          (disconnectOp (run cfgDefault [Ev.connectCall, Ev.sockClose 0] initState))) := by
  have h := c2_amended_no_auto_connect cfgDefault
    (run cfgDefault [Ev.connectCall, Ev.sockClose 0] initState)
    [Ev.fireReconnect 1, Ev.sockClose 0, Ev.fireHeartbeat 0]
    (by intro e he; fin_cases he <;> exact ⟨by simp, by simp⟩)
    (by decide)
  exact ⟨h.2.2.2.2.2.1, h.2.2.2.2.2.2.1, h.2.2.2.2.2.2.2⟩

/-- `close()` moves an OPEN socket to CLOSING. -/
theorem findSock_closeSock_opened (l : List (Nat × SockState)) (sid : Nat)
    (h : findSock l sid = some SockState.opened) :
    findSock (closeSock l sid) sid = some SockState.closing := by
  induction l with
  | nil => simp [findSock] at h
  | cons p rest ih =>
    by_cases hp : p.1 = sid
    · rw [findSock, if_pos hp] at h
      injection h with h
      simp [closeSock, findSock, hp, h]
    · rw [findSock, if_neg hp] at h
      simp only [closeSock, List.map_cons, if_neg hp, findSock]
      exact ih h

/-- C9: in the `useWebSocket` hook, `disconnect` clears only the pending
reconnect timeout and closes the socket; it sets no intentional-close flag
(the hook state has no such field) and leaves the attempt counter unchanged.
When the close callback of the socket it closed then fires with the counter
below 5, a reconnect timeout is scheduled, and when that timeout fires,
`connect` runs again: a fresh socket is constructed and stored — even though
the disconnect was deliberate. -/
theorem c9_hook_reconnects_after_disconnect (s : HookState) (sid : Nat)
    (hws : s.wsRef = some sid) (hst : findSock s.sockets sid = some SockState.opened)
    (ha : s.reconnectAttempts < 5) :
    (hookDisconnect s).reconnectAttempts = s.reconnectAttempts ∧
    (hookDisconnect s).wsRef = none ∧
    (hookClose (hookDisconnect s) sid).reconnectTimeoutRef
      = some (hookDisconnect s).nextId ∧
    (hookClose (hookDisconnect s) sid).pendingTimeouts.length
      = (hookDisconnect s).pendingTimeouts.length + 1 ∧
    (hookFire (hookClose (hookDisconnect s) sid) ((hookDisconnect s).nextId)).sockets.length
      = (hookClose (hookDisconnect s) sid).sockets.length + 1 ∧
    (hookFire (hookClose (hookDisconnect s) sid) ((hookDisconnect s).nextId)).wsRef
      = some ((hookClose (hookDisconnect s) sid).nextId) := by
  have hcl : findSock (closeSock s.sockets sid) sid = some SockState.closing :=
    findSock_closeSock_opened _ _ hst
  rcases hrt : s.reconnectTimeoutRef with _ | t0 <;>
    simp [hookDisconnect, hookClose, hookFire, hookConnect, hrt, hws, hcl, ha,
      setSock, List.length_map]

/-- Witness for C9: connect, open, deliberate disconnect — the close event
still schedules a timeout whose firing constructs socket 1. -/
theorem c9_hook_witness :
    (hookDisconnect (hookOpen (hookConnect hookInit) 0)).wsRef = none ∧
    (hookClose (hookDisconnect (hookOpen (hookConnect hookInit) 0)) 0).reconnectTimeoutRef
      = some (hookDisconnect (hookOpen (hookConnect hookInit) 0)).nextId ∧
    (hookFire (hookClose (hookDisconnect (hookOpen (hookConnect hookInit) 0)) 0)
        ((hookDisconnect (hookOpen (hookConnect hookInit) 0)).nextId)).wsRef
      = some ((hookClose (hookDisconnect (hookOpen (hookConnect hookInit) 0)) 0).nextId) := by
  have h := c9_hook_reconnects_after_disconnect (hookOpen (hookConnect hookInit) 0) 0
    (by decide) (by decide) (by decide)
  exact ⟨h.2.1, h.2.2.1, h.2.2.2.2.2⟩

/-- C10: every `getWebSocketManager()` call sequence without a config that
precedes any call carrying one returns the null singleton through the
unchecked non-null assertion; the first call with a config creates the
singleton from it; and once the singleton exists, every later call returns
that same instance with the singleton unchanged, any later config ignored. -/
theorem c10_singleton (pre : List (Option WSConfig)) (m c : WSConfig)
    (calls : List (Option WSConfig)) (hpre : ∀ x ∈ pre, x = none) :
    (runCalls pre none).1 = none ∧
    (∀ r ∈ (runCalls pre none).2, r = none) ∧
    getWSManager (some c) none = (some c, some c) ∧
    (runCalls calls (some m)).1 = some m ∧
    (∀ r ∈ (runCalls calls (some m)).2, r = some m) := by
  have hnone : ∀ l : List (Option WSConfig), (∀ x ∈ l, x = none) →
      (runCalls l none).1 = none ∧ ∀ r ∈ (runCalls l none).2, r = none := by
    intro l
    induction l with
    | nil => intro _; exact ⟨rfl, by simp [runCalls]⟩
    | cons x xs ih =>
      intro hl
      have hx : x = none := hl x (List.mem_cons_self x xs)
      have hxs := ih (fun y hy => hl y (List.mem_cons_of_mem x hy))
      subst hx
      refine ⟨hxs.1, ?_⟩
      intro r hr
      rw [runCalls] at hr
      simp only [List.mem_cons] at hr
      rcases hr with hr | hr
      · rw [hr]; rfl
      · exact hxs.2 r hr
  have hsome : ∀ (l : List (Option WSConfig)) (mm : WSConfig),
      (runCalls l (some mm)).1 = some mm ∧ ∀ r ∈ (runCalls l (some mm)).2, r = some mm := by
    intro l
    induction l with
    | nil => intro mm; exact ⟨rfl, by simp [runCalls]⟩
    | cons x xs ih =>
      intro mm
      have hx : getWSManager x (some mm) = (some mm, some mm) := by
        cases x <;> rfl
      refine ⟨?_, ?_⟩
      · rw [runCalls, hx]
        exact (ih mm).1
      · intro r hr
        rw [runCalls, hx] at hr
        simp only [List.mem_cons] at hr
        rcases hr with hr | hr
        · exact hr
        · exact (ih mm).2 r hr
  obtain ⟨h1, h2⟩ := hnone pre hpre
  obtain ⟨h4, h5⟩ := hsome calls m
  exact ⟨h1, h2, rfl, h4, h5⟩

/-- Witness for C10: two config-less calls return null; after creation, later
calls (with or without configs, even different ones) return the original
instance. -/
theorem c10_singleton_witness :
    (runCalls [none, none] none).1 = none ∧
    (runCalls [none, some cfgDefault, some { cfgDefault with url := "other" }]
        (some cfgDefault)).1 = some cfgDefault := by
  have h1 := c10_singleton [none, none] cfgDefault cfgDefault [] (by simp)
  have h2 := c10_singleton [] cfgDefault cfgDefault
    [none, some cfgDefault, some { cfgDefault with url := "other" }] (by simp)
  exact ⟨h1.1, h2.2.2.2.1⟩
